import Mathlib

/-!
Shallow embedding of the LMS (learning-management system) backend:
course catalog, users with enrollment, course purchases through Stripe
and Razorpay, and the request handlers the claims are about.

The document database is modelled as lists of records; `findOne` /
`findById` become `List.find?`, and `findOneAndUpdate` / mutate-and-save
become an in-place update of the first matching record (`updateFirst`).
Handlers are pure functions from a request and a database state to the
new database state together with an `Except AppError` response, mirroring
the `catchAsync` / `AppError` error flow of the source.
-/

namespace LMS

/-- `CoursePurchase` document (coursePurchase.model.js): user reference,
course reference, amount, status string, external payment identifier,
plus the fields the Razorpay flow writes. -/
structure PurchaseRecord where
  userId : Nat
  courseId : Nat
  amount : Nat
  status : String
  paymentId : String
  purchaseDate : Option Nat
  razorpayPaymentId : Option String
  razorpaySignature : Option String
  failureReason : Option String
deriving DecidableEq

/-- `User` document: identity, credential hash (optional: `undefined`
models a missing/stripped password), enrolled-course references. -/
structure UserRecord where
  id : Nat
  name : String
  email : String
  password : Option String
  photoUrl : Option String
  enrolledCourses : List Nat
deriving DecidableEq

/-- `Lecture` document: title/description/video reference, preview flag. -/
structure LectureRecord where
  id : Nat
  title : String
  description : String
  duration : Nat
  isPreview : Bool
  videoUrl : String
deriving DecidableEq

/-- `Course` document: catalog fields, instructor reference, ordered
lecture references, published flag. -/
structure CourseRecord where
  id : Nat
  title : String
  description : String
  price : Nat
  thumbnail : String
  instructor : Nat
  lectures : List Nat
  isPublished : Bool
deriving DecidableEq

/-- The document database: one collection per model. -/
structure DB where
  users : List UserRecord
  courses : List CourseRecord
  lectures : List LectureRecord
  purchases : List PurchaseRecord
deriving DecidableEq

/-- `AppError` from error.middleware.js: a typed application error
carrying a message and an HTTP status code. -/
structure AppError where
  message : String
  statusCode : Nat
deriving DecidableEq

/-- Default purchase used with `List.getD`. -/
def dummyPurchase : PurchaseRecord :=
  ⟨0, 0, 0, "pending", "", none, none, none, none⟩

/-- Update the first element of a list satisfying `p` (the semantics of
Mongoose `findOneAndUpdate` / find-then-mutate-then-save on one record). -/
def updateFirst (p : α → Bool) (f : α → α) : List α → List α
  | [] => []
  | x :: xs => if p x then f x :: xs else x :: updateFirst p f xs

theorem updateFirst_length (p : α → Bool) (f : α → α) :
    ∀ l : List α, (updateFirst p f l).length = l.length := by
  intro l
  induction l with
  | nil => rfl
  | cons x xs ih =>
    simp only [updateFirst]
    split <;> simp [ih]

/-- `i` is the index of the first element of `l` satisfying `p`. -/
def isFirstMatch (p : α → Bool) (d : α) (l : List α) (i : Nat) : Prop :=
  i < l.length ∧ p (l.getD i d) = true ∧ ∀ j, j < i → p (l.getD j d) = false

/-- Every position of `updateFirst p f l` holds either the old element or,
exactly at the first match, its image under `f`. -/
theorem updateFirst_getD_cases (p : α → Bool) (f : α → α) (d : α) :
    ∀ (l : List α) (i : Nat),
      (updateFirst p f l).getD i d = l.getD i d ∨
        (isFirstMatch p d l i ∧ (updateFirst p f l).getD i d = f (l.getD i d)) := by
  intro l
  induction l with
  | nil => intro i; left; rfl
  | cons x xs ih =>
    intro i
    by_cases hx : p x = true
    · cases i with
      | zero =>
        right
        refine ⟨⟨Nat.succ_pos _, by simpa using hx, fun j hj => absurd hj (Nat.not_lt_zero j)⟩, ?_⟩
        simp [updateFirst, hx]
      | succ n =>
        left
        simp [updateFirst, hx]
    · have hx' : p x = false := by
        revert hx; cases p x <;> simp
      cases i with
      | zero =>
        left
        simp [updateFirst, hx']
      | succ n =>
        rcases ih n with h | ⟨⟨hlen, hp, hprev⟩, heq⟩
        · left
          simp only [updateFirst, hx', List.getD_cons_succ, if_false, Bool.false_eq_true]
          exact h
        · right
          refine ⟨⟨Nat.succ_lt_succ hlen, by simpa using hp, ?_⟩, ?_⟩
          · intro j hj
            cases j with
            | zero => simpa using hx'
            | succ m => exact hprev m (Nat.lt_of_succ_lt_succ hj)
          · simpa [updateFirst, hx'] using heq

/-- At the first matching index, `updateFirst` applies `f`. -/
theorem updateFirst_getD_firstMatch (p : α → Bool) (f : α → α) (d : α)
    (l : List α) (i : Nat) (h : isFirstMatch p d l i) :
    (updateFirst p f l).getD i d = f (l.getD i d) := by
  induction l generalizing i with
  | nil => exact absurd h.1 (by simp)
  | cons x xs ih =>
    by_cases hx : p x = true
    · cases i with
      | zero => simp [updateFirst, hx]
      | succ n =>
        have := h.2.2 0 (Nat.succ_pos n)
        simp at this
        rw [this] at hx
        exact absurd hx (by simp)
    · have hx' : p x = false := by
        revert hx; cases p x <;> simp
      cases i with
      | zero =>
        have := h.2.1
        simp [hx'] at this
      | succ n =>
        have hfm : isFirstMatch p d xs n := by
          refine ⟨Nat.lt_of_succ_lt_succ h.1, by simpa using h.2.1, ?_⟩
          intro j hj
          have := h.2.2 (j + 1) (Nat.succ_lt_succ hj)
          simpa using this
        simpa [updateFirst, hx'] using ih n hfm

/-! ## Razorpay handlers (user.controller.js, lines 404-607) -/

/-- Body of a POST /api/v1/razorpay/verify-payment request. -/
structure VerifyPaymentReq where
  razorpay_order_id : String
  razorpay_payment_id : String
  razorpay_signature : String
deriving DecidableEq

/-- The Mongoose filter `{paymentId: razorpay_order_id, userId, status: "pending"}`
used by verifyPayment and handlePaymentFailure. -/
def rzpPendingMatch (uid : Nat) (orderId : String) (p : PurchaseRecord) : Bool :=
  p.paymentId == orderId && p.userId == uid && p.status == "pending"

/-- The update applied by verifyPayment's `findOneAndUpdate` on success. -/
def rzpSetCompleted (now : Nat) (payId sig : String) (p : PurchaseRecord) : PurchaseRecord := { p with
  status := "completed",
  purchaseDate := some now,
  razorpayPaymentId := some payId,
  razorpaySignature := some sig }

/-- The update applied on signature mismatch (`{status: "failed"}`). -/
def setStatusFailed (p : PurchaseRecord) : PurchaseRecord := { p with
  status := "failed" }

/-- `user.enrolledCourses.push(courseId)` on a user document. -/
def pushEnrolled (cid : Nat) (u : UserRecord) : UserRecord := { u with
  enrolledCourses := u.enrolledCourses ++ [cid] }

/-- The `data.purchase` object of a successful verify-payment response. -/
structure VerifyPaymentData where
  courseId : Nat
  courseName : String
  purchaseDate : Option Nat
  amount : Nat
  paymentId : String
deriving DecidableEq

/-- Successful verify-payment response body. -/
structure VerifyPaymentResp where
  status : String
  message : String
  purchase : VerifyPaymentData
deriving DecidableEq

/-- `verifyPayment` (user.controller.js:485): recompute the hex HMAC of
`razorpay_order_id + "|" + razorpay_payment_id` with the key secret; on
mismatch mark the pending purchase failed and reject with 400; on match
complete the purchase, enroll the user, and respond. The HMAC itself is
an external primitive, passed in as `hmacHex secret body`. `now` stands
for `new Date()`. A missing course on `populate("courseId")` makes the
JS dereference `purchase.courseId._id` throw, modelled as a 500 error. -/
def verifyPayment (hmacHex : String → String → String) (secret : String)
    (uid now : Nat) (req : VerifyPaymentReq) (db : DB) :
    DB × Except AppError VerifyPaymentResp :=
  let body := req.razorpay_order_id ++ "|" ++ req.razorpay_payment_id
  let expectedSignature := hmacHex secret body
  let isAuthentic := expectedSignature == req.razorpay_signature
  if isAuthentic then
    match db.purchases.find? (rzpPendingMatch uid req.razorpay_order_id) with
    | none => (db, .error ⟨"Purchase record not found", 404⟩)
    | some p0 =>
      let db1 : DB := { db with
        purchases := updateFirst (rzpPendingMatch uid req.razorpay_order_id)
          (rzpSetCompleted now req.razorpay_payment_id req.razorpay_signature) db.purchases }
      match db.courses.find? (fun c => c.id == p0.courseId) with
      | none => (db1, .error ⟨"Cannot read properties of null", 500⟩)
      | some course =>
        let db2 : DB :=
          match db1.users.find? (fun u => u.id == uid) with
          | some user =>
            if user.enrolledCourses.contains p0.courseId then db1
            else { db1 with
              users := updateFirst (fun u => u.id == uid) (pushEnrolled p0.courseId) db1.users }
          | none => db1
        let respData : VerifyPaymentData :=
          ⟨p0.courseId, course.title, some now, p0.amount, req.razorpay_payment_id⟩
        (db2, .ok ⟨"success", "Payment verified successfully", respData⟩)
  else
    let dbF : DB := { db with
      purchases := updateFirst (rzpPendingMatch uid req.razorpay_order_id) setStatusFailed db.purchases }
    (dbF, .error ⟨"Payment verification failed", 400⟩)

/-- JavaScript `a || b` on an optional string (`undefined` and `""` are falsy). -/
def jsStringOr (v : Option String) (fallback : String) : String :=
  match v with
  | some s => if s == "" then fallback else s
  | none => fallback

/-- Body of a POST /api/v1/razorpay/payment-failed request
(`error?.description` is the optional description). -/
structure PaymentFailureReq where
  razorpay_order_id : String
  errorDescription : Option String
deriving DecidableEq

/-- Successful payment-failure response body. -/
structure PaymentFailureResp where
  status : String
  message : String
  orderId : String
  failureReason : Option String
deriving DecidableEq

/-- `handlePaymentFailure` (user.controller.js:549): mark the pending
purchase for this order and user failed, recording a failure reason. -/
def handlePaymentFailure (uid : Nat) (req : PaymentFailureReq) (db : DB) :
    DB × Except AppError PaymentFailureResp :=
  match db.purchases.find? (rzpPendingMatch uid req.razorpay_order_id) with
  | none => (db, .error ⟨"Purchase record not found", 404⟩)
  | some _ =>
    let reason := jsStringOr req.errorDescription "Payment failed"
    let setFailed := fun (p : PurchaseRecord) => { p with
      status := "failed",
      failureReason := some reason }
    let db' : DB := { db with
      purchases := updateFirst (rzpPendingMatch uid req.razorpay_order_id) setFailed db.purchases }
    (db', .ok ⟨"success", "Payment failure recorded", req.razorpay_order_id, some reason⟩)

/-- The purchases component of a verifyPayment result is the input list,
the first pending match set failed, or the first pending match completed. -/
theorem verifyPayment_purchases_cases (hmacHex : String → String → String)
    (secret : String) (uid now : Nat) (req : VerifyPaymentReq) (db : DB) :
    (verifyPayment hmacHex secret uid now req db).1.purchases = db.purchases ∨
    (verifyPayment hmacHex secret uid now req db).1.purchases =
      updateFirst (rzpPendingMatch uid req.razorpay_order_id) setStatusFailed db.purchases ∨
    (verifyPayment hmacHex secret uid now req db).1.purchases =
      updateFirst (rzpPendingMatch uid req.razorpay_order_id)
        (rzpSetCompleted now req.razorpay_payment_id req.razorpay_signature) db.purchases := by
  unfold verifyPayment
  dsimp only
  split
  · split
    · left; rfl
    · split
      · right; right; rfl
      · split
        · split
          · right; right; rfl
          · right; right; rfl
        · right; right; rfl
  · right; left; rfl

/-- On a signature mismatch, verifyPayment returns the 400 error and marks
the first pending match failed. -/
theorem verifyPayment_of_mismatch (hmacHex : String → String → String)
    (secret : String) (uid now : Nat) (req : VerifyPaymentReq) (db : DB)
    (h : (hmacHex secret (req.razorpay_order_id ++ "|" ++ req.razorpay_payment_id) ==
      req.razorpay_signature) = false) :
    verifyPayment hmacHex secret uid now req db =
      ({ db with
        purchases := updateFirst (rzpPendingMatch uid req.razorpay_order_id) setStatusFailed db.purchases },
       Except.error ⟨"Payment verification failed", 400⟩) := by
  unfold verifyPayment
  simp only [h, Bool.false_eq_true, if_false]

/-- On a signature match, the purchases list is unchanged or has its first
pending match completed (never failed). -/
theorem verifyPayment_purchases_of_match (hmacHex : String → String → String)
    (secret : String) (uid now : Nat) (req : VerifyPaymentReq) (db : DB)
    (h : (hmacHex secret (req.razorpay_order_id ++ "|" ++ req.razorpay_payment_id) ==
      req.razorpay_signature) = true) :
    (verifyPayment hmacHex secret uid now req db).1.purchases = db.purchases ∨
    (verifyPayment hmacHex secret uid now req db).1.purchases =
      updateFirst (rzpPendingMatch uid req.razorpay_order_id)
        (rzpSetCompleted now req.razorpay_payment_id req.razorpay_signature) db.purchases := by
  unfold verifyPayment
  simp only [h, if_true]
  split
  · left; rfl
  · split
    · right; rfl
    · split
      · split
        · right; rfl
        · right; rfl
      · right; rfl

/-- C1: when the supplied razorpay_signature differs from the hex HMAC of
razorpay_order_id + "|" + razorpay_payment_id keyed with the Razorpay key
secret, verifyPayment rejects with a 400 "Payment verification failed"
error, the first purchase matching that order id, user and status
"pending" has its status set to "failed", and every other purchase is
untouched; when the signatures are equal, no purchase becomes "failed"
that was not already "failed". -/
theorem claim_C1 (hmacHex : String → String → String) (secret : String)
    (uid now : Nat) (req : VerifyPaymentReq) (db : DB) :
    (hmacHex secret (req.razorpay_order_id ++ "|" ++ req.razorpay_payment_id) ≠
        req.razorpay_signature →
      (verifyPayment hmacHex secret uid now req db).2 =
        Except.error ⟨"Payment verification failed", 400⟩ ∧
      (∀ i, isFirstMatch (rzpPendingMatch uid req.razorpay_order_id) dummyPurchase db.purchases i →
        ((verifyPayment hmacHex secret uid now req db).1.purchases.getD i dummyPurchase).status =
          "failed") ∧
      (∀ i, ¬ isFirstMatch (rzpPendingMatch uid req.razorpay_order_id) dummyPurchase db.purchases i →
        (verifyPayment hmacHex secret uid now req db).1.purchases.getD i dummyPurchase =
          db.purchases.getD i dummyPurchase)) ∧
    (hmacHex secret (req.razorpay_order_id ++ "|" ++ req.razorpay_payment_id) =
        req.razorpay_signature →
      ∀ i, ((verifyPayment hmacHex secret uid now req db).1.purchases.getD i dummyPurchase).status =
          "failed" →
        (db.purchases.getD i dummyPurchase).status = "failed") := by
  constructor
  · intro hsig
    have hbeq : (hmacHex secret (req.razorpay_order_id ++ "|" ++ req.razorpay_payment_id) ==
        req.razorpay_signature) = false := beq_eq_false_iff_ne.mpr hsig
    have hres := verifyPayment_of_mismatch hmacHex secret uid now req db hbeq
    refine ⟨by rw [hres], ?_, ?_⟩
    · intro i hfm
      have : (verifyPayment hmacHex secret uid now req db).1.purchases =
          updateFirst (rzpPendingMatch uid req.razorpay_order_id) setStatusFailed db.purchases := by
        rw [hres]
      rw [this, updateFirst_getD_firstMatch _ _ _ _ _ hfm]
      rfl
    · intro i hfm
      have hpur : (verifyPayment hmacHex secret uid now req db).1.purchases =
          updateFirst (rzpPendingMatch uid req.razorpay_order_id) setStatusFailed db.purchases := by
        rw [hres]
      rw [hpur]
      rcases updateFirst_getD_cases (rzpPendingMatch uid req.razorpay_order_id) setStatusFailed
        dummyPurchase db.purchases i with h | ⟨hm, _⟩
      · exact h
      · exact absurd hm hfm
  · intro hsig i hstat
    have hbeq : (hmacHex secret (req.razorpay_order_id ++ "|" ++ req.razorpay_payment_id) ==
        req.razorpay_signature) = true := beq_iff_eq.mpr hsig
    rcases verifyPayment_purchases_of_match hmacHex secret uid now req db hbeq with h | h
    · rwa [h] at hstat
    · rw [h] at hstat
      rcases updateFirst_getD_cases (rzpPendingMatch uid req.razorpay_order_id)
        (rzpSetCompleted now req.razorpay_payment_id req.razorpay_signature)
        dummyPurchase db.purchases i with hc | ⟨_, hc⟩
      · rwa [hc] at hstat
      · rw [hc] at hstat
        exact absurd hstat (by simp [rzpSetCompleted])

/-- Witness for C1: a concrete mismatched call is rejected with 400 and
fails the pending record; a concrete matched call on an already-failed
record leaves "failed" only where it already was. -/
theorem claim_C1_witness :
    ((verifyPayment (fun s b => s ++ "#" ++ b) "sec" 7 0 ⟨"ord1", "pay1", "bad"⟩
        ⟨[], [], [], [⟨7, 3, 100, "pending", "ord1", none, none, none, none⟩]⟩).2 =
      Except.error ⟨"Payment verification failed", 400⟩ ∧
    ((verifyPayment (fun s b => s ++ "#" ++ b) "sec" 7 0 ⟨"ord1", "pay1", "bad"⟩
        ⟨[], [], [], [⟨7, 3, 100, "pending", "ord1", none, none, none, none⟩]⟩).1.purchases.getD 0
      dummyPurchase).status = "failed") ∧
    ((⟨[], [], [], [⟨7, 3, 100, "failed", "ord1", none, none, none, none⟩]⟩ : DB).purchases.getD 0
      dummyPurchase).status = "failed" := by
  have h1 := (claim_C1 (fun s b => s ++ "#" ++ b) "sec" 7 0 ⟨"ord1", "pay1", "bad"⟩
    ⟨[], [], [], [⟨7, 3, 100, "pending", "ord1", none, none, none, none⟩]⟩).1 (by decide)
  have h2 := (claim_C1 (fun s b => s ++ "#" ++ b) "sec" 7 0 ⟨"ord1", "pay1", "sec#ord1|pay1"⟩
    ⟨[], [], [], [⟨7, 3, 100, "failed", "ord1", none, none, none, none⟩]⟩).2 (by decide) 0 (by decide)
  exact ⟨⟨h1.1, h1.2.1 0 ⟨by decide, by decide, fun j hj => absurd hj (Nat.not_lt_zero j)⟩⟩, h2⟩

/-! ## Stripe webhook handler (unnamed payment controller, `handleStripeWebhook`) -/

/-- A Stripe webhook event after successful signature construction,
keyed by the `event.type` string the handler switches on. -/
inductive StripeEvent where
  | completed (sessionId : String)
  | expired (sessionId : String)
  | other (eventType : String)
deriving DecidableEq

/-- The Mongoose filter `{paymentId: session.id, status: "pending"}`. -/
def stripePendingMatch (sid : String) (p : PurchaseRecord) : Bool :=
  p.paymentId == sid && p.status == "pending"

/-- The mutation `purchase.status = "completed"; purchase.purchaseDate = new Date()`. -/
def stripeSetCompleted (now : Nat) (p : PurchaseRecord) : PurchaseRecord := { p with
  status := "completed",
  purchaseDate := some now }

/-- Result of the webhook handler: new database, the `{received: true}`
acknowledgment (always sent), and counts of database lookups and writes
actually performed while handling the event. -/
structure WebhookResult where
  db : DB
  received : Bool
  lookups : Nat
  writes : Nat
deriving DecidableEq

/-- `handleStripeWebhook` (payment controller): switch on the event type;
`checkout.session.completed` finds the pending purchase by session id,
completes it and enrolls the user; `checkout.session.expired` marks the
pending purchase failed; other events are logged only. -/
def handleStripeWebhook (ev : StripeEvent) (now : Nat) (db : DB) : WebhookResult :=
  match ev with
  | .completed sid =>
    match db.purchases.find? (stripePendingMatch sid) with
    | some purchase =>
      let db1 : DB := { db with
        purchases := updateFirst (stripePendingMatch sid) (stripeSetCompleted now) db.purchases }
      match db1.users.find? (fun u => u.id == purchase.userId) with
      | some user =>
        if user.enrolledCourses.contains purchase.courseId then ⟨db1, true, 2, 1⟩
        else
          let db2 : DB := { db1 with
            users := updateFirst (fun u => u.id == purchase.userId)
              (pushEnrolled purchase.courseId) db1.users }
          ⟨db2, true, 2, 2⟩
      | none => ⟨db1, true, 2, 1⟩
    | none => ⟨db, true, 1, 0⟩
  | .expired sid =>
    match db.purchases.find? (stripePendingMatch sid) with
    | some _ =>
      let dbF : DB := { db with
        purchases := updateFirst (stripePendingMatch sid) setStatusFailed db.purchases }
      ⟨dbF, true, 1, 1⟩
    | none => ⟨db, true, 1, 0⟩
  | .other _ => ⟨db, true, 0, 0⟩

/-! ## C2: the purchase-status lifecycle -/

/-- One invocation of a purchase-status-changing handler. -/
inductive PayOp where
  | stripe (ev : StripeEvent) (now : Nat)
  | verify (hmacHex : String → String → String) (secret : String)
      (uid now : Nat) (req : VerifyPaymentReq)
  | failure (uid : Nat) (req : PaymentFailureReq)

/-- The database effect of one handler invocation. -/
def applyOp : PayOp → DB → DB
  | .stripe ev now, db => (handleStripeWebhook ev now db).db
  | .verify hmacHex secret uid now req, db => (verifyPayment hmacHex secret uid now req db).1
  | .failure uid req, db => (handlePaymentFailure uid req db).1

/-- The database effect of a sequence of handler invocations. -/
def applyOps (ops : List PayOp) (db : DB) : DB :=
  ops.foldl (fun d op => applyOp op d) db

/-- Allowed status evolution: unchanged, or pending to completed/failed. -/
def statusStep (a b : String) : Prop :=
  b = a ∨ (a = "pending" ∧ (b = "completed" ∨ b = "failed"))

theorem statusStep_trans (a b c : String) (h1 : statusStep a b) (h2 : statusStep b c) :
    statusStep a c := by
  rcases h1 with rfl | ⟨ha, hb⟩
  · exact h2
  · rcases h2 with rfl | ⟨hb', _⟩
    · exact Or.inr ⟨ha, hb⟩
    · rcases hb with hb | hb <;> rw [hb] at hb' <;> exact absurd hb' (by decide)

/-- `updateFirst` with a pending-only filter and a completing/failing
update is a `statusStep` at every position. -/
theorem updateFirst_statusStep (p : PurchaseRecord → Bool) (f : PurchaseRecord → PurchaseRecord)
    (hp : ∀ a, p a = true → a.status = "pending")
    (hf : ∀ a, (f a).status = "completed" ∨ (f a).status = "failed")
    (l : List PurchaseRecord) (i : Nat) :
    statusStep ((l.getD i dummyPurchase).status) (((updateFirst p f l).getD i dummyPurchase).status) := by
  rcases updateFirst_getD_cases p f dummyPurchase l i with h | ⟨⟨_, hm, _⟩, h⟩
  · rw [h]; exact Or.inl rfl
  · rw [h]; exact Or.inr ⟨hp _ hm, hf _⟩

theorem stripePendingMatch_status (sid : String) (p : PurchaseRecord)
    (h : stripePendingMatch sid p = true) : p.status = "pending" := by
  simp only [stripePendingMatch, Bool.and_eq_true, beq_iff_eq] at h
  exact h.2

theorem rzpPendingMatch_status (uid : Nat) (oid : String) (p : PurchaseRecord)
    (h : rzpPendingMatch uid oid p = true) : p.status = "pending" := by
  simp only [rzpPendingMatch, Bool.and_eq_true, beq_iff_eq] at h
  exact h.2

/-- Every single handler invocation is a `statusStep` on every purchase. -/
theorem applyOp_statusStep (op : PayOp) (db : DB) (i : Nat) :
    statusStep ((db.purchases.getD i dummyPurchase).status)
      (((applyOp op db).purchases.getD i dummyPurchase).status) := by
  cases op with
  | stripe ev now =>
    show statusStep _ (((handleStripeWebhook ev now db).db.purchases.getD i dummyPurchase).status)
    unfold handleStripeWebhook
    cases ev with
    | completed sid =>
      dsimp only
      split
      · split
        · split
          · exact updateFirst_statusStep _ _ (stripePendingMatch_status sid)
              (fun a => Or.inl rfl) db.purchases i
          · exact updateFirst_statusStep _ _ (stripePendingMatch_status sid)
              (fun a => Or.inl rfl) db.purchases i
        · exact updateFirst_statusStep _ _ (stripePendingMatch_status sid)
            (fun a => Or.inl rfl) db.purchases i
      · exact Or.inl rfl
    | expired sid =>
      dsimp only
      split
      · exact updateFirst_statusStep _ _ (stripePendingMatch_status sid)
          (fun a => Or.inr rfl) db.purchases i
      · exact Or.inl rfl
    | other t => exact Or.inl rfl
  | verify hmacHex secret uid now req =>
    show statusStep _ (((verifyPayment hmacHex secret uid now req db).1.purchases.getD i
      dummyPurchase).status)
    rcases verifyPayment_purchases_cases hmacHex secret uid now req db with h | h | h
    · rw [h]; exact Or.inl rfl
    · rw [h]
      exact updateFirst_statusStep _ _ (rzpPendingMatch_status uid req.razorpay_order_id)
        (fun a => Or.inr rfl) db.purchases i
    · rw [h]
      exact updateFirst_statusStep _ _ (rzpPendingMatch_status uid req.razorpay_order_id)
        (fun a => Or.inl rfl) db.purchases i
  | failure uid req =>
    show statusStep _ (((handlePaymentFailure uid req db).1.purchases.getD i dummyPurchase).status)
    unfold handlePaymentFailure
    dsimp only
    split
    · exact Or.inl rfl
    · exact updateFirst_statusStep _ _ (rzpPendingMatch_status uid req.razorpay_order_id)
        (fun a => Or.inr rfl) db.purchases i

theorem applyOps_statusStep (ops : List PayOp) (db : DB) (i : Nat) :
    statusStep ((db.purchases.getD i dummyPurchase).status)
      (((applyOps ops db).purchases.getD i dummyPurchase).status) := by
  induction ops generalizing db with
  | nil => exact Or.inl rfl
  | cons op ops ih =>
    exact statusStep_trans _ _ _ (applyOp_statusStep op db i) (ih (applyOp op db))

/-- C2: over any sequence of handleStripeWebhook, verifyPayment and
handlePaymentFailure invocations, each purchase's status either stays
put or moves pending to completed/failed, and a record already in state
"completed" or "failed" never changes status again. -/
theorem claim_C2 (ops : List PayOp) (db : DB) (i : Nat) :
    statusStep ((db.purchases.getD i dummyPurchase).status)
      (((applyOps ops db).purchases.getD i dummyPurchase).status) ∧
    ((db.purchases.getD i dummyPurchase).status = "completed" ∨
        (db.purchases.getD i dummyPurchase).status = "failed" →
      ((applyOps ops db).purchases.getD i dummyPurchase).status =
        (db.purchases.getD i dummyPurchase).status) := by
  refine ⟨applyOps_statusStep ops db i, ?_⟩
  intro hdone
  rcases applyOps_statusStep ops db i with h | ⟨hpend, _⟩
  · exact h
  · rcases hdone with hd | hd <;> rw [hd] at hpend <;> exact absurd hpend (by decide)

/-- Witness for C2: a completed purchase survives a duplicate completed
webhook delivery, an expired delivery and a payment-failure call intact. -/
theorem claim_C2_witness :
    statusStep
      (((⟨[⟨7, "n", "e", none, none, [3]⟩], [], [],
          [⟨7, 3, 100, "completed", "s1", none, none, none, none⟩]⟩ : DB).purchases.getD 0
        dummyPurchase).status)
      (((applyOps [PayOp.stripe (StripeEvent.completed "s1") 5, PayOp.stripe (StripeEvent.expired "s1") 6,
          PayOp.failure 7 ⟨"s1", none⟩]
          ⟨[⟨7, "n", "e", none, none, [3]⟩], [], [],
            [⟨7, 3, 100, "completed", "s1", none, none, none, none⟩]⟩).purchases.getD 0
        dummyPurchase).status) ∧
    (((applyOps [PayOp.stripe (StripeEvent.completed "s1") 5, PayOp.stripe (StripeEvent.expired "s1") 6,
        PayOp.failure 7 ⟨"s1", none⟩]
        ⟨[⟨7, "n", "e", none, none, [3]⟩], [], [],
          [⟨7, 3, 100, "completed", "s1", none, none, none, none⟩]⟩).purchases.getD 0
      dummyPurchase).status =
      ((⟨[⟨7, "n", "e", none, none, [3]⟩], [], [],
          [⟨7, 3, 100, "completed", "s1", none, none, none, none⟩]⟩ : DB).purchases.getD 0
        dummyPurchase).status) := by
  have h := claim_C2 [PayOp.stripe (StripeEvent.completed "s1") 5,
    PayOp.stripe (StripeEvent.expired "s1") 6, PayOp.failure 7 ⟨"s1", none⟩]
    ⟨[⟨7, "n", "e", none, none, [3]⟩], [], [],
      [⟨7, 3, 100, "completed", "s1", none, none, none, none⟩]⟩ 0
  exact ⟨h.1, h.2 (Or.inl (by decide))⟩

/-! ## C3: enrollment on completed purchase -/

/-- The enrolled-course list of the user with id `uid` (empty if absent). -/
def enrolledCoursesOf (db : DB) (uid : Nat) : List Nat :=
  match db.users.find? (fun u => u.id == uid) with
  | some u => u.enrolledCourses
  | none => []

/-- Updating the first match of `p` by an update preserving `p` keeps
`find? p` pointing at it, now updated. -/
theorem find?_updateFirst_self (p : α → Bool) (f : α → α) (l : List α) (x : α)
    (hfind : l.find? p = some x) (hpf : p (f x) = true) :
    (updateFirst p f l).find? p = some (f x) := by
  induction l with
  | nil => simp at hfind
  | cons y ys ih =>
    by_cases hy : p y = true
    · rw [List.find?_cons_of_pos _ hy] at hfind
      injection hfind with hx
      subst hx
      simp only [updateFirst, hy, if_true]
      rw [List.find?_cons_of_pos _ hpf]
    · have hy' : p y = false := by
        revert hy; cases p y <;> simp
      rw [List.find?_cons_of_neg _ (by simp [hy'])] at hfind
      simp only [updateFirst, hy', Bool.false_eq_true, if_false]
      rw [List.find?_cons_of_neg _ (by simp [hy'])]
      exact ih hfind

/-- C3: when a purchase is marked completed — by the Stripe webhook's
checkout.session.completed case or by a successful verifyPayment — the
purchased course is afterwards in the buying user's enrolledCourses, and
it is pushed exactly when it was not already present. -/
theorem claim_C3 :
    (∀ (sid : String) (now : Nat) (db : DB) (purchase : PurchaseRecord) (user : UserRecord),
      db.purchases.find? (stripePendingMatch sid) = some purchase →
      db.users.find? (fun u => u.id == purchase.userId) = some user →
      purchase.courseId ∈
        enrolledCoursesOf (handleStripeWebhook (StripeEvent.completed sid) now db).db
          purchase.userId ∧
      enrolledCoursesOf (handleStripeWebhook (StripeEvent.completed sid) now db).db
          purchase.userId =
        (if user.enrolledCourses.contains purchase.courseId then user.enrolledCourses
         else user.enrolledCourses ++ [purchase.courseId])) ∧
    (∀ (hmacHex : String → String → String) (secret : String) (uid now : Nat)
        (req : VerifyPaymentReq) (db : DB) (p0 : PurchaseRecord) (course : CourseRecord)
        (user : UserRecord),
      hmacHex secret (req.razorpay_order_id ++ "|" ++ req.razorpay_payment_id) =
        req.razorpay_signature →
      db.purchases.find? (rzpPendingMatch uid req.razorpay_order_id) = some p0 →
      db.courses.find? (fun c => c.id == p0.courseId) = some course →
      db.users.find? (fun u => u.id == uid) = some user →
      p0.courseId ∈
        enrolledCoursesOf (verifyPayment hmacHex secret uid now req db).1 uid ∧
      enrolledCoursesOf (verifyPayment hmacHex secret uid now req db).1 uid =
        (if user.enrolledCourses.contains p0.courseId then user.enrolledCourses
         else user.enrolledCourses ++ [p0.courseId])) := by
  constructor
  · intro sid now db purchase user hfind huser
    have hpuser := List.find?_some huser
    unfold handleStripeWebhook
    simp only [hfind, huser]
    cases hc : user.enrolledCourses.contains purchase.courseId with
    | true =>
      simp only [if_true]
      unfold enrolledCoursesOf
      simp only [huser]
      exact ⟨by simpa using hc, trivial⟩
    | false =>
      simp only [Bool.false_eq_true, if_false]
      unfold enrolledCoursesOf
      have hupd := find?_updateFirst_self (fun u => u.id == purchase.userId)
        (pushEnrolled purchase.courseId) db.users user huser
        hpuser
      simp only [hupd, pushEnrolled]
      exact ⟨List.mem_append_right _ (List.mem_singleton_self _), trivial⟩
  · intro hmacHex secret uid now req db p0 course user hsig hfind hcourse huser
    have hbeq : (hmacHex secret (req.razorpay_order_id ++ "|" ++ req.razorpay_payment_id) ==
        req.razorpay_signature) = true := beq_iff_eq.mpr hsig
    have hpuser := List.find?_some huser
    unfold verifyPayment
    simp only [hbeq, if_true, hfind, hcourse, huser]
    cases hc : user.enrolledCourses.contains p0.courseId with
    | true =>
      simp only [if_true]
      unfold enrolledCoursesOf
      simp only [huser]
      exact ⟨by simpa using hc, trivial⟩
    | false =>
      simp only [Bool.false_eq_true, if_false]
      unfold enrolledCoursesOf
      have hupd := find?_updateFirst_self (fun u => u.id == uid)
        (pushEnrolled p0.courseId) db.users user huser
        hpuser
      simp only [hupd, pushEnrolled]
      exact ⟨List.mem_append_right _ (List.mem_singleton_self _), trivial⟩

/-- Witness for C3 at a concrete database: a user not yet enrolled gets
the course pushed by both completion paths. -/
theorem claim_C3_witness :
    (3 ∈ enrolledCoursesOf
      (handleStripeWebhook (StripeEvent.completed "s1") 5
        ⟨[⟨7, "n", "e", none, none, []⟩], [⟨3, "t", "d", 100, "th", 9, [], true⟩], [],
          [⟨7, 3, 100, "pending", "s1", none, none, none, none⟩]⟩).db 7) ∧
    (3 ∈ enrolledCoursesOf
      (verifyPayment (fun s b => s ++ "#" ++ b) "sec" 7 5 ⟨"ord1", "pay1", "sec#ord1|pay1"⟩
        ⟨[⟨7, "n", "e", none, none, []⟩], [⟨3, "t", "d", 100, "th", 9, [], true⟩], [],
          [⟨7, 3, 100, "pending", "ord1", none, none, none, none⟩]⟩).1 7) := by
  have hA := claim_C3.1 "s1" 5
    ⟨[⟨7, "n", "e", none, none, []⟩], [⟨3, "t", "d", 100, "th", 9, [], true⟩], [],
      [⟨7, 3, 100, "pending", "s1", none, none, none, none⟩]⟩
    ⟨7, 3, 100, "pending", "s1", none, none, none, none⟩ ⟨7, "n", "e", none, none, []⟩
    (by decide) (by decide)
  have hB := claim_C3.2 (fun s b => s ++ "#" ++ b) "sec" 7 5 ⟨"ord1", "pay1", "sec#ord1|pay1"⟩
    ⟨[⟨7, "n", "e", none, none, []⟩], [⟨3, "t", "d", 100, "th", 9, [], true⟩], [],
      [⟨7, 3, 100, "pending", "ord1", none, none, none, none⟩]⟩
    ⟨7, 3, 100, "pending", "ord1", none, none, none, none⟩ ⟨3, "t", "d", 100, "th", 9, [], true⟩
    ⟨7, "n", "e", none, none, []⟩ (by decide) (by decide) (by decide) (by decide)
  exact ⟨hA.1, hB.1⟩

/-! ## C4: duplicate webhook deliveries -/

/-- If at most one element matches `p` and `f` destroys the match, the
updated list has no match left. -/
theorem find?_updateFirst_eq_none (p : α → Bool) (f : α → α)
    (hf : ∀ a, p (f a) = false) :
    ∀ l : List α, (l.filter p).length ≤ 1 → (updateFirst p f l).find? p = none := by
  intro l
  induction l with
  | nil => intro _; rfl
  | cons x xs ih =>
    intro hcount
    by_cases hx : p x = true
    · have hxs : ∀ a ∈ xs, ¬ p a = true := by
        rw [List.filter_cons_of_pos hx] at hcount
        have hlen : (xs.filter p).length = 0 := by
          simpa using Nat.le_of_succ_le_succ hcount
        intro a ha hpa
        have : a ∈ xs.filter p := List.mem_filter.mpr ⟨ha, hpa⟩
        rw [List.length_eq_zero.mp hlen] at this
        simp at this
      simp only [updateFirst, hx, if_true]
      rw [List.find?_cons_of_neg _ (by simp [hf x])]
      exact List.find?_eq_none.mpr hxs
    · have hx' : p x = false := by
        revert hx; cases p x <;> simp
      rw [List.filter_cons_of_neg (by simp [hx'])] at hcount
      simp only [updateFirst, hx', Bool.false_eq_true, if_false]
      rw [List.find?_cons_of_neg _ (by simp [hx'])]
      exact ih hcount

/-- The purchases component written by the completed case. -/
theorem handleStripeWebhook_completed_purchases (sid : String) (now : Nat) (db : DB) :
    (handleStripeWebhook (StripeEvent.completed sid) now db).db.purchases =
      (match db.purchases.find? (stripePendingMatch sid) with
       | some _ => updateFirst (stripePendingMatch sid) (stripeSetCompleted now) db.purchases
       | none => db.purchases) := by
  cases hfind : db.purchases.find? (stripePendingMatch sid) with
  | none =>
    unfold handleStripeWebhook
    simp [hfind]
  | some purchase =>
    unfold handleStripeWebhook
    simp only [hfind]
    split
    · split <;> rfl
    · rfl

/-- The purchases component written by the expired case. -/
theorem handleStripeWebhook_expired_purchases (sid : String) (now : Nat) (db : DB) :
    (handleStripeWebhook (StripeEvent.expired sid) now db).db.purchases =
      (match db.purchases.find? (stripePendingMatch sid) with
       | some _ => updateFirst (stripePendingMatch sid) setStatusFailed db.purchases
       | none => db.purchases) := by
  cases hfind : db.purchases.find? (stripePendingMatch sid) with
  | none =>
    unfold handleStripeWebhook
    simp [hfind]
  | some purchase =>
    unfold handleStripeWebhook
    simp [hfind]

/-- C4: because both handled webhook cases locate the purchase by session
id restricted to status "pending", a second delivery of the same
checkout.session.completed or checkout.session.expired event finds no
pending record and leaves the database exactly as after the first
delivery (assuming at most one purchase of that session id is pending,
i.e. the unique record the spec speaks of). -/
theorem claim_C4 (sid : String) (now1 now2 : Nat) (db : DB)
    (h : (db.purchases.filter (stripePendingMatch sid)).length ≤ 1) :
    (handleStripeWebhook (StripeEvent.completed sid) now2
        (handleStripeWebhook (StripeEvent.completed sid) now1 db).db).db =
      (handleStripeWebhook (StripeEvent.completed sid) now1 db).db ∧
    (handleStripeWebhook (StripeEvent.expired sid) now2
        (handleStripeWebhook (StripeEvent.expired sid) now1 db).db).db =
      (handleStripeWebhook (StripeEvent.expired sid) now1 db).db := by
  have hkillC : ∀ a, stripePendingMatch sid (stripeSetCompleted now1 a) = false := by
    intro a
    simp [stripePendingMatch, stripeSetCompleted]
  have hkillF : ∀ a, stripePendingMatch sid (setStatusFailed a) = false := by
    intro a
    simp [stripePendingMatch, setStatusFailed]
  constructor
  · set X := (handleStripeWebhook (StripeEvent.completed sid) now1 db).db with hX
    have hnone : X.purchases.find? (stripePendingMatch sid) = none := by
      rw [hX, handleStripeWebhook_completed_purchases]
      cases hfind : db.purchases.find? (stripePendingMatch sid) with
      | none =>
        simpa using hfind
      | some purchase =>
        simpa using find?_updateFirst_eq_none (stripePendingMatch sid)
          (stripeSetCompleted now1) hkillC db.purchases h
    have hstep : handleStripeWebhook (StripeEvent.completed sid) now2 X = ⟨X, true, 1, 0⟩ := by
      unfold handleStripeWebhook
      simp [hnone]
    rw [hstep]
  · set X := (handleStripeWebhook (StripeEvent.expired sid) now1 db).db with hX
    have hnone : X.purchases.find? (stripePendingMatch sid) = none := by
      rw [hX, handleStripeWebhook_expired_purchases]
      cases hfind : db.purchases.find? (stripePendingMatch sid) with
      | none =>
        simpa using hfind
      | some purchase =>
        simpa using find?_updateFirst_eq_none (stripePendingMatch sid)
          setStatusFailed hkillF db.purchases h
    have hstep : handleStripeWebhook (StripeEvent.expired sid) now2 X = ⟨X, true, 1, 0⟩ := by
      unfold handleStripeWebhook
      simp [hnone]
    rw [hstep]

/-- Witness for C4: a concrete pending purchase, delivered twice. -/
theorem claim_C4_witness :
    (handleStripeWebhook (StripeEvent.completed "s1") 2
        (handleStripeWebhook (StripeEvent.completed "s1") 1
          ⟨[⟨7, "n", "e", none, none, []⟩], [], [],
            [⟨7, 3, 100, "pending", "s1", none, none, none, none⟩]⟩).db).db =
      (handleStripeWebhook (StripeEvent.completed "s1") 1
        ⟨[⟨7, "n", "e", none, none, []⟩], [], [],
          [⟨7, 3, 100, "pending", "s1", none, none, none, none⟩]⟩).db ∧
    (handleStripeWebhook (StripeEvent.expired "s1") 2
        (handleStripeWebhook (StripeEvent.expired "s1") 1
          ⟨[⟨7, "n", "e", none, none, []⟩], [], [],
            [⟨7, 3, 100, "pending", "s1", none, none, none, none⟩]⟩).db).db =
      (handleStripeWebhook (StripeEvent.expired "s1") 1
        ⟨[⟨7, "n", "e", none, none, []⟩], [], [],
          [⟨7, 3, 100, "pending", "s1", none, none, none, none⟩]⟩).db :=
  claim_C4 "s1" 1 2
    ⟨[⟨7, "n", "e", none, none, []⟩], [], [],
      [⟨7, 3, 100, "pending", "s1", none, none, none, none⟩]⟩ (by decide)

/-! ## C5: the response envelope

Shapes of every JSON body the service sends (one entry per `res.json`
call in the source, named by its handler; the webhook's plain-text 400
`res.send` is not a JSON body and has no entry). Only the presence of
the `status`, `data` and `message` fields is recorded. The error
middleware itself is not under src/; its `{status: "error", message}`
shape is modelled from the spec as the `errorMiddleware` entry. -/

/-- Which of the envelope fields a JSON response body carries. -/
structure RespShape where
  hasStatus : Bool
  hasData : Bool
  hasMessage : Bool
deriving DecidableEq

/-- The uniform envelope `{status, data|message}`. -/
def envelope (r : RespShape) : Prop :=
  r.hasStatus = true ∧ (r.hasData = true ∨ r.hasMessage = true)

instance envelopeDecidable (r : RespShape) : Decidable (envelope r) :=
  decidable_of_iff (r.hasStatus = true ∧ (r.hasData = true ∨ r.hasMessage = true)) Iff.rfl

/-- Every JSON response body of the service, by handler. -/
def serviceResponses : List (String × RespShape) := [
  ("initiateStripeCheckout", ⟨true, true, false⟩),
  ("handleStripeWebhook_ack", ⟨false, false, false⟩),
  ("getCoursePurchaseStatus", ⟨true, true, false⟩),
  ("getPurchasedCourses", ⟨true, true, false⟩),
  ("createNewCourse", ⟨true, true, false⟩),
  ("searchCourses", ⟨true, true, false⟩),
  ("getPublishedCourses", ⟨true, true, false⟩),
  ("getMyCreatedCourses", ⟨true, true, false⟩),
  ("updateCourseDetails", ⟨true, true, false⟩),
  ("getCourseDetails", ⟨true, true, false⟩),
  ("addLectureToCourse", ⟨true, true, false⟩),
  ("getCourseLectures", ⟨true, true, false⟩),
  ("createUserAccount", ⟨true, true, true⟩),
  ("authenticateUser", ⟨true, true, true⟩),
  ("signOutUser", ⟨true, false, true⟩),
  ("getCurrentUserProfile", ⟨true, true, false⟩),
  ("updateUserProfile", ⟨true, true, true⟩),
  ("changeUserPassword", ⟨true, false, true⟩),
  ("forgotPassword", ⟨true, true, true⟩),
  ("resetPassword", ⟨true, true, true⟩),
  ("deleteUserAccount", ⟨true, false, true⟩),
  ("createRazorpayOrder", ⟨true, true, false⟩),
  ("verifyPayment", ⟨true, true, true⟩),
  ("handlePaymentFailure", ⟨true, true, true⟩),
  ("getPaymentStatus", ⟨true, true, false⟩),
  ("getUserCourseProgress", ⟨true, true, false⟩),
  ("updateLectureProgress", ⟨true, true, false⟩),
  ("markCourseAsCompleted", ⟨true, true, false⟩),
  ("resetCourseProgress", ⟨true, true, false⟩),
  ("checkHealth", ⟨true, true, false⟩),
  ("generateToken", ⟨false, false, true⟩),
  ("errorMiddleware", ⟨true, false, true⟩)]

/-- C5 counterexample: the Stripe webhook acknowledgment `{received: true}`
is a JSON response of the service with no `status`, `data` or `message`
field, so it breaks the claimed uniform envelope. -/
theorem claim_C5_counterexample :
    ("handleStripeWebhook_ack", (⟨false, false, false⟩ : RespShape)) ∈ serviceResponses ∧
    ¬ envelope ⟨false, false, false⟩ := by
  constructor
  · decide
  · intro h
    exact absurd h.1 (by decide)

/-- C5 (amended): every JSON response of the service except the Stripe
webhook acknowledgment `{received: true}` and the generateToken helper's
`{success, message, user}` body carries the `{status, data|message}`
envelope. -/
theorem claim_C5 (nr : String × RespShape) (h : nr ∈ serviceResponses) :
    nr.1 = "handleStripeWebhook_ack" ∨ nr.1 = "generateToken" ∨ envelope nr.2 := by
  revert nr
  decide

/-- Witness for C5 at a concrete entry. -/
theorem claim_C5_witness :
    ("getCourseDetails", (⟨true, true, false⟩ : RespShape)).1 = "handleStripeWebhook_ack" ∨
    ("getCourseDetails", (⟨true, true, false⟩ : RespShape)).1 = "generateToken" ∨
    envelope (⟨true, true, false⟩ : RespShape) :=
  claim_C5 ("getCourseDetails", ⟨true, true, false⟩) (by decide)

/-! ## C6: database operations per webhook case -/

/-- C6 counterexample: with a pending purchase and its user present, the
completed case performs two lookups (purchase, then user) and two writes
(purchase status, then enrollment), not one lookup and one write. -/
theorem claim_C6_counterexample :
    ¬ ((handleStripeWebhook (StripeEvent.completed "s1") 1
        ⟨[⟨7, "n", "e", none, none, []⟩], [], [],
          [⟨7, 3, 100, "pending", "s1", none, none, none, none⟩]⟩).lookups = 1 ∧
      (handleStripeWebhook (StripeEvent.completed "s1") 1
        ⟨[⟨7, "n", "e", none, none, []⟩], [], [],
          [⟨7, 3, 100, "pending", "s1", none, none, none, none⟩]⟩).writes = 1) ∧
    (handleStripeWebhook (StripeEvent.completed "s1") 1
      ⟨[⟨7, "n", "e", none, none, []⟩], [], [],
        [⟨7, 3, 100, "pending", "s1", none, none, none, none⟩]⟩).lookups = 2 := by
  constructor
  · intro h
    exact absurd h.1 (by decide)
  · decide

/-- C6 (amended): the expired case performs exactly one lookup and a
write exactly when a pending purchase with that session id exists; the
completed case performs one lookup and no write when no pending purchase
matches, and otherwise a second (user) lookup plus one or two writes
(purchase status, and enrollment when the user needs it). -/
theorem claim_C6 (sid : String) (now : Nat) (db : DB) :
    ((handleStripeWebhook (StripeEvent.expired sid) now db).lookups = 1 ∧
      (handleStripeWebhook (StripeEvent.expired sid) now db).writes =
        (if (db.purchases.find? (stripePendingMatch sid)).isSome then 1 else 0)) ∧
    ((db.purchases.find? (stripePendingMatch sid)).isSome = true →
      (handleStripeWebhook (StripeEvent.completed sid) now db).lookups = 2 ∧
      1 ≤ (handleStripeWebhook (StripeEvent.completed sid) now db).writes ∧
      (handleStripeWebhook (StripeEvent.completed sid) now db).writes ≤ 2) ∧
    ((db.purchases.find? (stripePendingMatch sid)).isSome = false →
      (handleStripeWebhook (StripeEvent.completed sid) now db).lookups = 1 ∧
      (handleStripeWebhook (StripeEvent.completed sid) now db).writes = 0) := by
  refine ⟨?_, ?_, ?_⟩
  · cases hfind : db.purchases.find? (stripePendingMatch sid) with
    | none =>
      unfold handleStripeWebhook
      simp [hfind]
    | some purchase =>
      unfold handleStripeWebhook
      simp [hfind]
  · intro hsome
    cases hfind : db.purchases.find? (stripePendingMatch sid) with
    | none => rw [hfind] at hsome; simp at hsome
    | some purchase =>
      unfold handleStripeWebhook
      simp only [hfind]
      split
      · split
        · refine ⟨rfl, ?_, ?_⟩ <;> simp
        · refine ⟨rfl, ?_, ?_⟩ <;> simp
      · refine ⟨rfl, ?_, ?_⟩ <;> simp
  · intro hnone
    cases hfind : db.purchases.find? (stripePendingMatch sid) with
    | none =>
      unfold handleStripeWebhook
      simp [hfind]
    | some purchase => rw [hfind] at hnone; simp at hnone

/-- Witness for C6 at a concrete database with a pending purchase. -/
theorem claim_C6_witness :
    ((handleStripeWebhook (StripeEvent.expired "s1") 1
        ⟨[⟨7, "n", "e", none, none, []⟩], [], [],
          [⟨7, 3, 100, "pending", "s1", none, none, none, none⟩]⟩).lookups = 1 ∧
      (handleStripeWebhook (StripeEvent.expired "s1") 1
        ⟨[⟨7, "n", "e", none, none, []⟩], [], [],
          [⟨7, 3, 100, "pending", "s1", none, none, none, none⟩]⟩).writes =
        (if ((⟨[⟨7, "n", "e", none, none, []⟩], [], [],
            [⟨7, 3, 100, "pending", "s1", none, none, none, none⟩]⟩ : DB).purchases.find?
          (stripePendingMatch "s1")).isSome then 1 else 0)) ∧
    ((handleStripeWebhook (StripeEvent.completed "s1") 1
        ⟨[⟨7, "n", "e", none, none, []⟩], [], [],
          [⟨7, 3, 100, "pending", "s1", none, none, none, none⟩]⟩).lookups = 2 ∧
      1 ≤ (handleStripeWebhook (StripeEvent.completed "s1") 1
        ⟨[⟨7, "n", "e", none, none, []⟩], [], [],
          [⟨7, 3, 100, "pending", "s1", none, none, none, none⟩]⟩).writes ∧
      (handleStripeWebhook (StripeEvent.completed "s1") 1
        ⟨[⟨7, "n", "e", none, none, []⟩], [], [],
          [⟨7, 3, 100, "pending", "s1", none, none, none, none⟩]⟩).writes ≤ 2) := by
  have h := claim_C6 "s1" 1
    ⟨[⟨7, "n", "e", none, none, []⟩], [], [],
      [⟨7, 3, 100, "pending", "s1", none, none, none, none⟩]⟩
  exact ⟨h.1, h.2.1 (by decide)⟩

/-! ## C7: getCourseDetails on a missing course -/

/-- Successful course-details response: the course with populated
instructor (left as the reference) and lectures. -/
structure CourseDetailsResp where
  status : String
  course : CourseRecord
  lectures : List LectureRecord
deriving DecidableEq

/-- `getCourseDetails` (course.controller.js:133): find the course by id,
404 "Course not found" when absent, otherwise respond with the course and
its populated lectures. -/
def getCourseDetails (cid : Nat) (db : DB) : Except AppError CourseDetailsResp :=
  match db.courses.find? (fun c => c.id == cid) with
  | none => Except.error ⟨"Course not found", 404⟩
  | some course =>
    Except.ok ⟨"success", course,
      course.lectures.filterMap (fun lid => db.lectures.find? (fun l => l.id == lid))⟩

/-- Serialized error body `{status: "error", message}`. -/
structure ErrorBody where
  status : String
  message : String
deriving DecidableEq

/-- Modelled from the spec: the shared wrapper (error.middleware.js is
not under src/; only `AppError` and `catchAsync` callers are) catches a
thrown typed application error and serializes it with its carried HTTP
status as `{status: "error", message}`. -/
def serializeAppError (e : AppError) : Nat × ErrorBody :=
  (e.statusCode, ⟨"error", e.message⟩)

/-- C7: for a courseId with no matching course, getCourseDetails raises
the typed 404 "Course not found" error, which serializes as
`{status: "error", message}`, and no course data is returned. -/
theorem claim_C7 (cid : Nat) (db : DB)
    (h : ∀ c ∈ db.courses, (c.id == cid) = false) :
    getCourseDetails cid db = Except.error ⟨"Course not found", 404⟩ ∧
    serializeAppError ⟨"Course not found", 404⟩ = (404, ⟨"error", "Course not found"⟩) ∧
    ∀ r, getCourseDetails cid db ≠ Except.ok r := by
  have hfind : db.courses.find? (fun c => c.id == cid) = none :=
    List.find?_eq_none.mpr (fun c hc => by simp [h c hc])
  refine ⟨?_, rfl, ?_⟩
  · unfold getCourseDetails
    simp [hfind]
  · intro r hne
    unfold getCourseDetails at hne
    rw [hfind] at hne
    cases hne

/-- Witness for C7: a database whose only course has a different id. -/
theorem claim_C7_witness :
    getCourseDetails 3 ⟨[], [⟨5, "t", "d", 10, "th", 9, [], true⟩], [], []⟩ =
      Except.error ⟨"Course not found", 404⟩ ∧
    serializeAppError ⟨"Course not found", 404⟩ = (404, ⟨"error", "Course not found"⟩) := by
  have h := claim_C7 3 ⟨[], [⟨5, "t", "d", 10, "th", 9, [], true⟩], [], []⟩ (by decide)
  exact ⟨h.1, h.2.1⟩

/-! ## C9: credential hash never in signup/signin responses -/

/-- Successful signup/signin response body: `{status, message,
data: {user, token}}`. -/
structure AuthResp where
  status : String
  message : String
  user : UserRecord
  token : String
deriving DecidableEq

/-- `createUserAccount` (user.controller.js:13): reject duplicate email,
hash the password, create the user, strip the password from the response
document, and respond 201. `hash` is the external bcrypt primitive and
`tok` the generated JWT. -/
def createUserAccount (hash : String → String) (tok : String)
    (name email password : String) (newId : Nat) (db : DB) :
    DB × Except AppError AuthResp :=
  match db.users.find? (fun u => u.email == email) with
  | some _ => (db, Except.error ⟨"User already exists with this email", 400⟩)
  | none =>
    let newUser : UserRecord := ⟨newId, name, email, some (hash password), none, []⟩
    let db1 : DB := { db with users := db.users ++ [newUser] }
    (db1, Except.ok ⟨"success", "Account created successfully",
      { newUser with password := none }, tok⟩)

/-- JavaScript falsiness of an optional request string (`undefined` or `""`). -/
def jsFalsyStr (v : Option String) : Bool :=
  match v with
  | some s => s == ""
  | none => true

/-- `authenticateUser` (user.controller.js:61): require email and
password, look the user up by email (with the password field selected),
compare with bcrypt, strip the password from the response document, and
respond. `compare` is the external bcrypt comparison. -/
def authenticateUser (compare : String → String → Bool) (tok : String)
    (email password : Option String) (db : DB) : Except AppError AuthResp :=
  if jsFalsyStr email || jsFalsyStr password then
    Except.error ⟨"Please provide email and password", 400⟩
  else
    match db.users.find? (fun u => u.email == email.getD "") with
    | none => Except.error ⟨"Invalid email or password", 401⟩
    | some user =>
      if compare (password.getD "") (user.password.getD "") then
        Except.ok ⟨"success", "Logged in successfully", { user with password := none }, tok⟩
      else
        Except.error ⟨"Invalid email or password", 401⟩

/-- C9: every successful signup and signin response carries the user
object with its password field set to undefined. -/
theorem claim_C9 :
    (∀ (hash : String → String) (tok name email password : String) (newId : Nat)
        (db : DB) (resp : AuthResp),
      (createUserAccount hash tok name email password newId db).2 = Except.ok resp →
      resp.user.password = none) ∧
    (∀ (compare : String → String → Bool) (tok : String) (email password : Option String)
        (db : DB) (resp : AuthResp),
      authenticateUser compare tok email password db = Except.ok resp →
      resp.user.password = none) := by
  constructor
  · intro hash tok name email password newId db resp h
    unfold createUserAccount at h
    revert h
    split
    · intro h
      cases h
    · intro h
      injection h with h1
      rw [← h1]
  · intro compare tok email password db resp h
    unfold authenticateUser at h
    revert h
    split
    · intro h
      cases h
    · split
      · intro h
        cases h
      · split
        · intro h
          injection h with h1
          rw [← h1]
        · intro h
          cases h

/-- Witness for C9: a concrete signup on an empty database and a signin
against a stored credential hash. -/
theorem claim_C9_witness :
    ((⟨"success", "Account created successfully", ⟨1, "n", "e", none, none, []⟩,
        "tk"⟩ : AuthResp).user.password = none) ∧
    ((⟨"success", "Logged in successfully", ⟨1, "n", "e", none, none, []⟩,
        "tk"⟩ : AuthResp).user.password = none) := by
  constructor
  · exact claim_C9.1 (fun s => s) "tk" "n" "e" "pw" 1 ⟨[], [], [], []⟩
      ⟨"success", "Account created successfully", ⟨1, "n", "e", none, none, []⟩, "tk"⟩ rfl
  · exact claim_C9.2 (fun a b => true) "tk" (some "e") (some "pw")
      ⟨[⟨1, "n", "e", some "hash", none, []⟩], [], [], []⟩
      ⟨"success", "Logged in successfully", ⟨1, "n", "e", none, none, []⟩, "tk"⟩ rfl

/-! ## C8: lecture video URLs and purchase status -/

/-- Lecture object as sent in the purchase-status response; videoUrl is
optional because the non-purchaser mapping may omit it. -/
structure LectureOut where
  id : Nat
  title : String
  description : String
  duration : Nat
  isPreview : Bool
  videoUrl : Option String
deriving DecidableEq

/-- The full populated lecture document, as sent to purchasers. -/
def fullLectureOut (l : LectureRecord) : LectureOut :=
  ⟨l.id, l.title, l.description, l.duration, l.isPreview, some l.videoUrl⟩

/-- The mapped lecture for non-purchasers
(`...(lecture.isPreview && {videoUrl: lecture.videoUrl})`). -/
def sanitizedLectureOut (l : LectureRecord) : LectureOut :=
  ⟨l.id, l.title, l.description, l.duration, l.isPreview,
    if l.isPreview then some l.videoUrl else none⟩

/-- Filter for a completed purchase of this user and course. -/
def completedPurchaseMatch (uid cid : Nat) (p : PurchaseRecord) : Bool :=
  p.userId == uid && p.courseId == cid && p.status == "completed"

/-- Response of getCoursePurchaseStatus: `isPurchased`, the lecture list
(full or sanitized) and `purchaseInfo`. -/
structure PurchaseStatusResp where
  isPurchased : Bool
  lectures : List LectureOut
  purchaseInfo : Option PurchaseRecord
deriving DecidableEq

/-- `getCoursePurchaseStatus` (payment controller): 404 on a missing
course; otherwise look for a completed purchase of this user and course
and send full lectures to purchasers, sanitized ones to everyone else. -/
def getCoursePurchaseStatus (uid cid : Nat) (db : DB) : Except AppError PurchaseStatusResp :=
  match db.courses.find? (fun c => c.id == cid) with
  | none => Except.error ⟨"Course not found", 404⟩
  | some course =>
    let lectures := course.lectures.filterMap (fun lid => db.lectures.find? (fun l => l.id == lid))
    let purchase := db.purchases.find? (completedPurchaseMatch uid cid)
    let isPurchased := purchase.isSome
    Except.ok ⟨isPurchased,
      if isPurchased then lectures.map fullLectureOut else lectures.map sanitizedLectureOut,
      purchase⟩

/-- Two lecture documents agreeing on everything a non-purchaser may see
(the video URL of a non-preview lecture is the secret). -/
def lectureLowEq (a b : LectureRecord) : Prop :=
  a.id = b.id ∧ a.title = b.title ∧ a.description = b.description ∧
  a.duration = b.duration ∧ a.isPreview = b.isPreview ∧
  (a.isPreview = true → a.videoUrl = b.videoUrl)

theorem sanitizedLectureOut_congr (a b : LectureRecord) (h : lectureLowEq a b) :
    sanitizedLectureOut a = sanitizedLectureOut b := by
  obtain ⟨h1, h2, h3, h4, h5, h6⟩ := h
  have hv : (if a.isPreview then some a.videoUrl else none) =
      (if b.isPreview then some b.videoUrl else none) := by
    by_cases hp : a.isPreview = true
    · rw [hp] at h5
      rw [hp, ← h5, h6 hp]
    · have hp' : a.isPreview = false := by
        revert hp; cases a.isPreview <;> simp
      rw [hp'] at h5
      rw [hp', ← h5]
      simp
  unfold sanitizedLectureOut
  rw [hv, h1, h2, h3, h4, h5]

/-- The populate-then-sanitize pipeline cannot distinguish two lecture
collections that agree on all non-secret fields. -/
theorem find?_map_sanitized_congr (lid : Nat) :
    ∀ (L1 L2 : List LectureRecord), List.Forall₂ lectureLowEq L1 L2 →
      (L1.find? (fun l => l.id == lid)).map sanitizedLectureOut =
        (L2.find? (fun l => l.id == lid)).map sanitizedLectureOut := by
  intro L1 L2 hrel
  induction hrel with
  | nil => rfl
  | cons hab hrest ih =>
    rename_i a b l1 l2
    have hid : (a.id == lid) = (b.id == lid) := by rw [hab.1]
    by_cases hpa : (a.id == lid) = true
    · have hpb : (b.id == lid) = true := by rw [← hid]; exact hpa
      rw [List.find?_cons_of_pos l1 (show (fun l => l.id == lid) a = true from hpa),
        List.find?_cons_of_pos l2 (show (fun l => l.id == lid) b = true from hpb)]
      simp [sanitizedLectureOut_congr a b hab]
    · have hpa' : (a.id == lid) = false := by
        revert hpa; cases a.id == lid <;> simp
      have hpb' : (b.id == lid) = false := by rw [← hid]; exact hpa'
      rw [List.find?_cons_of_neg l1 (show ¬ (fun l => l.id == lid) a = true by simp [hpa']),
        List.find?_cons_of_neg l2 (show ¬ (fun l => l.id == lid) b = true by simp [hpb'])]
      exact ih

/-- C8: in getCoursePurchaseStatus, a non-purchaser sees a videoUrl field
exactly on preview lectures, a purchaser sees every videoUrl, and the
response of a non-purchaser is unchanged when the video URLs of
non-preview lectures change — the secret never flows to them. -/
theorem claim_C8 :
    (∀ (uid cid : Nat) (db : DB) (resp : PurchaseStatusResp),
      getCoursePurchaseStatus uid cid db = Except.ok resp →
      resp.isPurchased = false →
      ∀ l ∈ resp.lectures, l.videoUrl.isSome = l.isPreview) ∧
    (∀ (uid cid : Nat) (db : DB) (resp : PurchaseStatusResp),
      getCoursePurchaseStatus uid cid db = Except.ok resp →
      resp.isPurchased = true →
      ∀ l ∈ resp.lectures, l.videoUrl.isSome = true) ∧
    (∀ (uid cid : Nat) (db1 db2 : DB),
      db1.courses = db2.courses →
      db1.purchases = db2.purchases →
      List.Forall₂ lectureLowEq db1.lectures db2.lectures →
      db1.purchases.find? (completedPurchaseMatch uid cid) = none →
      getCoursePurchaseStatus uid cid db1 = getCoursePurchaseStatus uid cid db2) := by
  refine ⟨?_, ?_, ?_⟩
  · intro uid cid db resp h hfalse
    unfold getCoursePurchaseStatus at h
    revert h
    split
    · intro h
      cases h
    · intro h
      injection h with h1
      subst h1
      dsimp only at hfalse ⊢
      rw [hfalse]
      simp only [Bool.false_eq_true, if_false]
      intro l hl
      obtain ⟨l0, hl0, rfl⟩ := List.mem_map.mp hl
      cases hp : l0.isPreview <;> simp [sanitizedLectureOut, hp]
  · intro uid cid db resp h htrue
    unfold getCoursePurchaseStatus at h
    revert h
    split
    · intro h
      cases h
    · intro h
      injection h with h1
      subst h1
      dsimp only at htrue ⊢
      rw [htrue]
      simp only [if_true]
      intro l hl
      obtain ⟨l0, hl0, rfl⟩ := List.mem_map.mp hl
      simp [fullLectureOut]
  · intro uid cid db1 db2 hcourses hpurch hrel hpnone
    unfold getCoursePurchaseStatus
    rw [← hcourses, ← hpurch]
    cases hfind : db1.courses.find? (fun c => c.id == cid) with
    | none => rfl
    | some course =>
      dsimp only
      rw [hpnone]
      simp only [Option.isSome_none, Bool.false_eq_true, if_false]
      have hfm : ∀ lid, (db1.lectures.find? (fun l => l.id == lid)).map sanitizedLectureOut =
          (db2.lectures.find? (fun l => l.id == lid)).map sanitizedLectureOut :=
        fun lid => find?_map_sanitized_congr lid db1.lectures db2.lectures hrel
      rw [List.map_filterMap, List.map_filterMap]
      rw [show (fun lid => (db1.lectures.find? (fun l => l.id == lid)).map sanitizedLectureOut) =
          (fun lid => (db2.lectures.find? (fun l => l.id == lid)).map sanitizedLectureOut)
        from funext hfm]

/-- Witness for C8: user 7 has not bought course 3; the hidden lecture's
URL is absent from their response and changing it does not change the
response, while a buyer (user 8) receives it. -/
theorem claim_C8_witness :
    ((⟨2, "t2", "d2", 5, false, none⟩ : LectureOut).videoUrl.isSome =
      (⟨2, "t2", "d2", 5, false, none⟩ : LectureOut).isPreview) ∧
    ((⟨2, "t2", "d2", 5, false, some "u2"⟩ : LectureOut).videoUrl.isSome = true) ∧
    getCoursePurchaseStatus 7 3
      ⟨[], [⟨3, "t", "d", 10, "th", 9, [1, 2], true⟩],
        [⟨1, "t1", "d1", 4, true, "u1"⟩, ⟨2, "t2", "d2", 5, false, "u2"⟩], []⟩ =
    getCoursePurchaseStatus 7 3
      ⟨[], [⟨3, "t", "d", 10, "th", 9, [1, 2], true⟩],
        [⟨1, "t1", "d1", 4, true, "u1"⟩, ⟨2, "t2", "d2", 5, false, "SECRET"⟩], []⟩ := by
  refine ⟨?_, ?_, ?_⟩
  · exact claim_C8.1 7 3
      ⟨[], [⟨3, "t", "d", 10, "th", 9, [1, 2], true⟩],
        [⟨1, "t1", "d1", 4, true, "u1"⟩, ⟨2, "t2", "d2", 5, false, "u2"⟩], []⟩
      ⟨false, [⟨1, "t1", "d1", 4, true, some "u1"⟩, ⟨2, "t2", "d2", 5, false, none⟩], none⟩
      rfl rfl ⟨2, "t2", "d2", 5, false, none⟩ (by decide)
  · exact claim_C8.2.1 8 3
      ⟨[], [⟨3, "t", "d", 10, "th", 9, [1, 2], true⟩],
        [⟨1, "t1", "d1", 4, true, "u1"⟩, ⟨2, "t2", "d2", 5, false, "u2"⟩],
        [⟨8, 3, 100, "completed", "x", none, none, none, none⟩]⟩
      ⟨true, [⟨1, "t1", "d1", 4, true, some "u1"⟩, ⟨2, "t2", "d2", 5, false, some "u2"⟩],
        some ⟨8, 3, 100, "completed", "x", none, none, none, none⟩⟩
      rfl rfl ⟨2, "t2", "d2", 5, false, some "u2"⟩ (by decide)
  · exact claim_C8.2.2 7 3
      ⟨[], [⟨3, "t", "d", 10, "th", 9, [1, 2], true⟩],
        [⟨1, "t1", "d1", 4, true, "u1"⟩, ⟨2, "t2", "d2", 5, false, "u2"⟩], []⟩
      ⟨[], [⟨3, "t", "d", 10, "th", 9, [1, 2], true⟩],
        [⟨1, "t1", "d1", 4, true, "u1"⟩, ⟨2, "t2", "d2", 5, false, "SECRET"⟩], []⟩
      rfl rfl
      (List.Forall₂.cons ⟨rfl, rfl, rfl, rfl, rfl, fun _ => rfl⟩
        (List.Forall₂.cons ⟨rfl, rfl, rfl, rfl, rfl, fun h => absurd h Bool.false_ne_true⟩
          List.Forall₂.nil))
      rfl

/-! ## C10: updateCourseDetails -/

/-- JavaScript falsiness of an optional request number (`undefined` or `0`). -/
def jsFalsyNat (v : Option Nat) : Bool :=
  match v with
  | some n => n == 0
  | none => true

/-- Body of a PATCH /api/v1/courses/:courseId request. -/
structure UpdateCourseReq where
  title : Option String
  description : Option String
  price : Option Nat
  thumbnail : Option String
deriving DecidableEq

/-- `updateCourseDetails` (course.controller.js:104): find the course by
id (404 when absent), upload a new thumbnail when one is supplied, and
overwrite title, description and price only by truthy values
(`course.title = title || course.title` and so on), then save. `upload`
is the external Cloudinary primitive returning the secure URL. -/
def updateCourseDetails (upload : String → String) (cid : Nat)
    (req : UpdateCourseReq) (db : DB) : DB × Except AppError CourseRecord :=
  match db.courses.find? (fun c => c.id == cid) with
  | none => (db, Except.error ⟨"Course not found", 404⟩)
  | some course =>
    let c1 : CourseRecord :=
      if jsFalsyStr req.thumbnail then course
      else { course with thumbnail := upload (req.thumbnail.getD "") }
    let c2 : CourseRecord := { c1 with
      title := if jsFalsyStr req.title then c1.title else req.title.getD "",
      description := if jsFalsyStr req.description then c1.description else req.description.getD "",
      price := if jsFalsyNat req.price then c1.price else req.price.getD 0 }
    let db1 : DB := { db with
      courses := updateFirst (fun c => c.id == cid) (fun _ => c2) db.courses }
    (db1, Except.ok c2)

/-- C10: updateCourseDetails keeps any field whose supplied value is
falsy (absent, empty string, or 0), so a price of 0 can never be set,
and it never touches instructor, lectures or isPublished. -/
theorem claim_C10 (upload : String → String) (cid : Nat) (req : UpdateCourseReq)
    (db : DB) (course c2 : CourseRecord)
    (hfind : db.courses.find? (fun c => c.id == cid) = some course)
    (hok : (updateCourseDetails upload cid req db).2 = Except.ok c2) :
    (jsFalsyStr req.title = true → c2.title = course.title) ∧
    (jsFalsyStr req.description = true → c2.description = course.description) ∧
    (jsFalsyNat req.price = true → c2.price = course.price) ∧
    (c2.price = 0 → course.price = 0) ∧
    c2.instructor = course.instructor ∧
    c2.lectures = course.lectures ∧
    c2.isPublished = course.isPublished ∧
    (updateCourseDetails upload cid req db).1.courses =
      updateFirst (fun c => c.id == cid) (fun _ => c2) db.courses := by
  unfold updateCourseDetails at hok ⊢
  rw [hfind] at hok ⊢
  dsimp only at hok ⊢
  injection hok with h1
  subst h1
  refine ⟨?_, ?_, ?_, ?_, ?_, ?_, ?_, rfl⟩
  · intro hf
    cases hth : jsFalsyStr req.thumbnail <;> simp [hf, hth]
  · intro hf
    cases hth : jsFalsyStr req.thumbnail <;> simp [hf, hth]
  · intro hf
    cases hth : jsFalsyStr req.thumbnail <;> simp [hf, hth]
  · intro hzero
    cases hfp : jsFalsyNat req.price with
    | true =>
      cases hth : jsFalsyStr req.thumbnail <;> simp [hfp, hth] at hzero <;> exact hzero
    | false =>
      exfalso
      simp only [hfp, Bool.false_eq_true, if_false] at hzero
      cases hp : req.price with
      | none => rw [hp] at hfp; simp [jsFalsyNat] at hfp
      | some n =>
        rw [hp] at hfp hzero
        simp [jsFalsyNat] at hfp
        simp [hfp] at hzero
  · cases hth : jsFalsyStr req.thumbnail <;> simp [hth]
  · cases hth : jsFalsyStr req.thumbnail <;> simp [hth]
  · cases hth : jsFalsyStr req.thumbnail <;> simp [hth]

/-- Witness for C10: empty title, absent description, price 0 and no
thumbnail leave the course exactly as it was. -/
theorem claim_C10_witness :
    ((⟨3, "t", "d", 0, "th", 9, [1], true⟩ : CourseRecord).title =
      (⟨3, "t", "d", 0, "th", 9, [1], true⟩ : CourseRecord).title) ∧
    ((⟨3, "t", "d", 0, "th", 9, [1], true⟩ : CourseRecord).price = 0) ∧
    ((⟨3, "t", "d", 0, "th", 9, [1], true⟩ : CourseRecord).isPublished =
      (⟨3, "t", "d", 0, "th", 9, [1], true⟩ : CourseRecord).isPublished) := by
  have h := claim_C10 (fun s => s) 3 ⟨some "", none, some 0, none⟩
    ⟨[], [⟨3, "t", "d", 0, "th", 9, [1], true⟩], [], []⟩
    ⟨3, "t", "d", 0, "th", 9, [1], true⟩ ⟨3, "t", "d", 0, "th", 9, [1], true⟩
    (by decide) rfl
  exact ⟨h.1 (by decide), h.2.2.2.1 rfl, h.2.2.2.2.2.2.1⟩

end LMS
